import Mathlib

set_option maxRecDepth 10000

/-!
# Verification of the pycasio expression/statement compiler

Shallow embedding of the pycasio translator (a Python-to-Casio-bytecode
compiler) in Lean 4, with theorems settling the frozen claims about its
specification.

Byte sequences are modelled as Lean `String`s whose characters are the
byte values of the Python `bytes` objects (every byte used by the program
is below 0x100, so this is a faithful byte-sequence model).

Sources embedded: `pycasio/bytecode.py` (the byte constants),
`pycasio/context.py` (`CasioType`, `Symbol`, `SymbolTable`,
`get_casio_ref_type`, `CasioContext.lookup_casio_ref`),
`pycasio/module_helper.py` (`ModulePath` and the registry),
`pycasio/compiler.py` (`CodeFlags`, `Code`, `CasioNodeVisitor`).
-/

namespace Pycasio

/-! ## Bytecode constants (bytecode.py, class Bytecode) -/

namespace B

def DISP : String := "\x0c"
def CARRIAGE : String := "\x0d"
def ASSIGN : String := "\x0e"
def EXP : String := "\x0f"
def NOT : String := "\x7f\xb3"
def XOR : String := "\x7f\xb4"
def MOD : String := "\x7f\x3a"
def NEGATIVE : String := "\x87"
def ADD : String := "\x89"
def ABSOLUTE : String := "\x97"
def SUBTRACT : String := "\x99"
def INT : String := "\xa6"
def POWER : String := "\xa8"
def MULTIPLY : String := "\xa9"
def DIVIDE : String := "\xb9"
def RADIUS : String := "\xcd"
def THETA : String := "\xce"
def FLOOR : String := "\xde"
def STRING : String := "\xf9\x3f"
def AND : String := "\x7f\xb0"
def OR : String := "\x7f\xb1"

end B

/-! ## CasioType (context.py) -/

inductive CasioType
  | NULL
  | NUMBER
  | STRING
  deriving DecidableEq, Repr

/-! ## Code flags (compiler.py, class CodeFlags)

The Python class is an `IntFlag` bitmask; we model a flag set as a `Nat`
combined with bitwise operations, exactly as the integer values combine. -/

namespace CodeFlags

def NONE : Nat := 0
def PREVENT_EXPRESSION : Nat := 1
def PREVENT_ASSIGNMENT : Nat := 2
def PREVENT_ARGUMENT : Nat := 4
def HAS_SIDE_EFFECTS : Nat := 8
def IS_BOOLEAN : Nat := 16

end CodeFlags

/-! ## Code (compiler.py, class Code)

`Code.__init__` stores raw bytes, a type and flags, and for NULL-typed
values forces `PREVENT_ASSIGNMENT | PREVENT_ARGUMENT` on at construction.
`Code.make` is that constructor; the plain structure constructor is only
the record. -/

structure Code where
  bytes : String
  type : CasioType
  flags : Nat
  deriving DecidableEq, Repr

def Code.make (raw : String) (t : CasioType) (flags : Nat) : Code :=
  if t = CasioType.NULL then
    ⟨raw, t, flags ||| (CodeFlags.PREVENT_ASSIGNMENT ||| CodeFlags.PREVENT_ARGUMENT)⟩
  else
    ⟨raw, t, flags⟩

/-! ## ModulePath (module_helper.py)

A `ModulePath` wraps a list of dot-free segments; `__eq__` and `__hash__`
go through the dot-joined string, so equality compares joined strings. -/

structure ModulePath where
  path : List String
  deriving Repr

/-- Python `ModulePath.__str__`: the dot-joined path. -/
def ModulePath.toStr (m : ModulePath) : String :=
  String.intercalate "." m.path

/-- Python `ModulePath.__eq__`: `str(self) == str(other)`. -/
def ModulePath.beq (a b : ModulePath) : Bool :=
  a.toStr == b.toStr

/-- Python `str.split(".")` on the character list: consecutive separators
yield empty segments and the empty string yields the character list
of `[""]`.  (A direct structural implementation of the single-character-split
Python semantics.) -/
def splitDot : List Char → List (List Char)
  | [] => [[]]
  | c :: rest =>
    let r := splitDot rest
    if c = '.' then [] :: r
    else
      match r with
      | h :: t => (c :: h) :: t
      | [] => [[c]]

/-- Python `ModulePath(path: str)`: split the dotted text on `"."`. -/
def mkPath (s : String) : ModulePath :=
  ⟨(splitDot s.data).map (fun l => String.mk l)⟩

/-- Python `self[:-1]` — slicing re-wraps the sliced segment list. -/
def ModulePath.dropLastSeg (m : ModulePath) : ModulePath :=
  ⟨m.path.dropLast⟩

/-- Python `self[:n]`. -/
def ModulePath.takeSeg (m : ModulePath) (n : Nat) : ModulePath :=
  ⟨m.path.take n⟩

/-- Python `self[n:]`. -/
def ModulePath.dropSeg (m : ModulePath) (n : Nat) : ModulePath :=
  ⟨m.path.drop n⟩

/-- Python `self + other` (concatenation of segment lists). -/
def ModulePath.addPath (a b : ModulePath) : ModulePath :=
  ⟨a.path ++ b.path⟩

/-- Python `ModulePath.is_direct_child(self, child)` (module_helper.py lines 45-53):
if `len(self) + 1 != len(child)` return False, else return
`self[:-1] == child` — the comparison exactly as the source writes it. -/
def ModulePath.is_direct_child (self child : ModulePath) : Bool :=
  if self.path.length + 1 ≠ child.path.length then
    false
  else
    ModulePath.beq self.dropLastSeg child

/-- Python `ModulePath.get_direct_children(self, modules)`: filter the candidates
through `is_direct_child`. -/
def ModulePath.get_direct_children (self : ModulePath) (modules : List ModulePath) :
    List ModulePath :=
  modules.filter (fun m => self.is_direct_child m)

/-! ## Module registry (module_helper.py)

`get_pycasio_functions` iterates the `pycasio/casio/` package one level
deep; in this repository it finds exactly one module, `input.py`, so the
registry has the single key `pycasio.casio.input`.  The function calls
`importlib.util.module_from_spec(spec)` but never `spec.loader.exec_module`,
so the module body is never executed: `inspect.getmembers(loaded_mod)`
sees only underscore-prefixed attributes of the empty module object, all
of which are skipped, and the key's function set comes out EMPTY — the
functions `number_input` and `string_input` defined in `input.py` are not
registered.  `get_pycasio_modules` is the set of function-module keys
plus the package paths `pycasio` and `pycasio.casio`. -/

def POSSIBLE_FUNCTIONS : List (ModulePath × List String) :=
  [(mkPath "pycasio.casio.input", [])]

def POSSIBLE_MODULES : List ModulePath :=
  [mkPath "pycasio", mkPath "pycasio.casio", mkPath "pycasio.casio.input"]

def lookupFunctions (lib : ModulePath) : Option (List String) :=
  (POSSIBLE_FUNCTIONS.find? (fun p => ModulePath.beq p.1 lib)).map Prod.snd

def isPossibleModule (m : ModulePath) : Bool :=
  POSSIBLE_MODULES.any (fun p => ModulePath.beq p m)

/-! ## Errors

The compiler's own diagnostics (exceptions.py defines one exception class
per kind; all carry a message and optional help text).  Besides those, a
Python runtime can abort with built-in exceptions the code does not
catch — `IndexError` (`list.pop()` on an empty list), `TypeError`
(concatenating/unpacking incompatible objects) and `AssertionError`; the
embedding keeps those as distinct outcomes because the translator can
actually reach them. -/

inductive CasioErrKind
  | importErr
  | nameErr
  | assignmentErr
  | typeErr
  | operationErr
  | notSupported
  | notImplemented
  | allocation
  deriving DecidableEq, Repr

inductive PyErr
  | casio (kind : CasioErrKind) (msg : String) (helptxt : String)
  | indexError (msg : String)
  | typeError (msg : String)
  | assertionError (msg : String)
  deriving DecidableEq, Repr

/-! ## Symbol and SymbolTable (context.py) -/

/-- A Symbol's `value` field holds either raw emitted bytes (assignments)
or a resolved `ModulePath` (imports/aliases). -/
inductive SymValue
  | bytesV (b : String)
  | pathV (p : ModulePath)
  deriving Repr

structure Symbol where
  name : String
  value : SymValue
  type : CasioType
  var : Option String
  deriving Repr

/-- Python `Symbol.__init__`: `var` starts as `None`. -/
def Symbol.make (name : String) (value : SymValue) (t : CasioType) : Symbol :=
  ⟨name, value, t, none⟩

/-- Python `SymbolTable`: a dict from names to Symbols plus the per-type pools of
free calculator variables (`free_vars`).  The dict is modelled as an
association list keyed by name; entries are updated in place
(`self[sym.name] = sym`). -/
structure SymbolTable where
  entries : List (String × Symbol)
  freeNum : List String
  freeStr : List String

/-- Python `SymbolTable.__init__`: the NUMBER pool is
`[B.THETA, B.RADIUS] + [x.encode() for x in "ZWVUTSRQPONMLKJIHGFEDCBA"]`
(X and Y are reserved as volatile), the STRING pool is
`[B.STRING + str(x).encode() for x in range(1, 21)]`. -/
def SymbolTable.init : SymbolTable where
  entries := []
  freeNum :=
    [B.THETA, B.RADIUS] ++ ("ZWVUTSRQPONMLKJIHGFEDCBA".toList.map (fun c => String.mk [c]))
  freeStr := (List.range 20).map (fun x => B.STRING ++ toString (x + 1))

/-- Select `self.free_vars[t]` (only NUMBER and STRING keys exist). -/
def SymbolTable.freePool (st : SymbolTable) (t : CasioType) : List String :=
  match t with
  | CasioType.NUMBER => st.freeNum
  | CasioType.STRING => st.freeStr
  | CasioType.NULL => []

def SymbolTable.setPool (st : SymbolTable) (t : CasioType) (l : List String) :
    SymbolTable :=
  match t with
  | CasioType.NUMBER => { st with freeNum := l }
  | CasioType.STRING => { st with freeStr := l }
  | CasioType.NULL => st

/-- Python `SymbolTable.get(name)`: dict lookup by exact name. -/
def SymbolTable.get (st : SymbolTable) (name : String) : Option Symbol :=
  (st.entries.find? (fun e => e.1 == name)).map Prod.snd

/-- Python `SymbolTable.add(sym)`: `self[sym.name] = sym` — overwrite or insert. -/
def SymbolTable.add (st : SymbolTable) (sym : Symbol) : SymbolTable :=
  if st.entries.any (fun e => e.1 == sym.name) then
    { st with entries :=
        st.entries.map (fun e => if e.1 == sym.name then (sym.name, sym) else e) }
  else
    { st with entries := st.entries ++ [(sym.name, sym)] }

/-- Python `SymbolTable.alloc(sym)` (context.py lines 82-85): assert the symbol
has no variable yet and is not NULL-typed, then
`sym.var = self.free_vars[sym.type].pop()` — `list.pop()` removes and
returns the LAST element and raises `IndexError` on an empty list. -/
def SymbolTable.alloc (st : SymbolTable) (sym : Symbol) :
    Except PyErr (SymbolTable × Symbol) :=
  if sym.var.isSome then
    .error (.assertionError "double alloc!")
  else if sym.type = CasioType.NULL then
    .error (.assertionError "alloc of NULL type")
  else
    let pool := st.freePool sym.type
    match pool.getLast? with
    | none => .error (.indexError "pop from empty list")
    | some v => .ok (st.setPool sym.type pool.dropLast, { sym with var := some v })

/-- Python `SymbolTable.new(var_type, name, value)` (context.py lines 72-77):
create a fresh Symbol, allocate a variable for it when its type is not
NULL, and add it to the dict (always overwriting any prior binding of the
same name). -/
def SymbolTable.new (st : SymbolTable) (varType : CasioType) (name : String)
    (value : SymValue) : Except PyErr (SymbolTable × Symbol) := do
  let sym := Symbol.make name value varType
  let (st, sym) ←
    if varType ≠ CasioType.NULL then
      st.alloc sym
    else
      pure (st, sym)
  .ok (st.add sym, sym)

/-! ## Reference resolution (context.py) -/

/-- The value `get_casio_ref_type` hands back to its caller.  The Python
function returns a 2-tuple `("mod", ref)`, a pair of `None` and the
empty string, or
`("func", (lib, func))` on three paths — but on the fourth path
(context.py line 33, function module known, function name unknown) it
returns a BARE `None`, not a tuple; the caller unpacks the result into
two variables, so that path matters and is kept distinct. -/
inductive RefTypeRet
  | tupMod (ref : ModulePath)
  | tupNone
  | tupFunc (lib : ModulePath) (func : String)
  | bareNone
  deriving Repr

/-- Python `get_casio_ref_type(ref)` (context.py lines 16-34). -/
def get_casio_ref_type (ref : ModulePath) : RefTypeRet :=
  if isPossibleModule ref then
    .tupMod ref
  else
    let lib := ref.dropLastSeg
    match lookupFunctions lib with
    | none => .tupNone
    | some functions =>
      -- ref[-1] is the final segment (wrapped back into a path by
      -- __getitem__; membership in the function-name set compares the
      -- joined string, i.e. the segment itself)
      let func := (ref.path.getLast?).getD ""
      if functions.contains func then
        .tupFunc lib func
      else
        .bareNone

/-- One iteration step of `CasioContext.lookup_casio_ref`'s prefix loop
(context.py lines 106-116), over the list of remaining indices `i`.
At the first index whose prefix `mod[:i+1]` is a bound symbol: assert the
symbol's value is a ModulePath, substitute it (`mod = full_ref + mod[i+1:]`),
then `ref_type, ref = get_casio_ref_type(mod)` — unpacking a bare `None`
raises `TypeError`; a non-`None` `ref_type` returns the path, otherwise
the loop `break`s and the function returns `None`. -/
def lookupRefAux (symbols : SymbolTable) (mod : ModulePath) :
    List Nat → Except PyErr (Option ModulePath)
  | [] => .ok none
  | i :: rest =>
    match symbols.get (mod.takeSeg (i + 1)).toStr with
    | none => lookupRefAux symbols mod rest
    | some symRef =>
      match symRef.value with
      | SymValue.bytesV _ =>
        .error (.assertionError "symbol value is not a ModulePath")
      | SymValue.pathV fullRef =>
        let mod2 := fullRef.addPath (mod.dropSeg (i + 1))
        match get_casio_ref_type mod2 with
        | .bareNone =>
          .error (.typeError "cannot unpack non-iterable NoneType object")
        | .tupNone => .ok none
        | .tupMod _ => .ok (some mod2)
        | .tupFunc _ _ => .ok (some mod2)

/-- Python `CasioContext.lookup_casio_ref(symbol)` (context.py lines 103-118). -/
def lookup_casio_ref (symbols : SymbolTable) (symbol : String) :
    Except PyErr (Option ModulePath) :=
  let mod := mkPath symbol
  lookupRefAux symbols mod (List.range mod.path.length)

/-! ## Literal constants (compiler.py, visit_Constant)

A Python `ast.Constant` holds a string, an int, a float, a bool or
`None`.  Note that in Python `bool` is a subclass of `int`, so
`isinstance(True, int)` is true — the embedding keeps booleans as their
own constructor and reproduces that subtyping in the branch tests.
Python float values and the exact IEEE-754 rounding of literals are
abstracted: numeric values are carried as exact rationals, and Python's
`str()` on a float (shortest round-trip decimal, exponent marker `e`) is
a parameter `fs` of the translation. -/

inductive PyConst
  | cStr (s : String)
  | cInt (n : Int)
  | cFloat (q : ℚ)
  | cBool (b : Bool)
  | cNone
  deriving DecidableEq, Repr

/-- Python `isinstance(v, int) or isinstance(v, float)` — true for bools too. -/
def PyConst.isNumberLike : PyConst → Bool
  | .cInt _ => true
  | .cFloat _ => true
  | .cBool _ => true
  | _ => false

/-- The numeric value of a number-like constant (`True == 1`, `False == 0`). -/
def PyConst.numVal : PyConst → ℚ
  | .cInt n => (n : ℚ)
  | .cFloat q => q
  | .cBool b => if b then 1 else 0
  | _ => 0

/-- Python `CASIO_MAX = 9.999999999e99` (compiler.py line 293), as an exact
rational (9999999999 × 10⁹⁰, written through ℤ so that the kernel can
evaluate comparisons against it). -/
def CASIO_MAX : ℚ := ((9999999999 * 10 ^ 90 : ℤ) : ℚ)

/-- Python `node.value = min(max(node.value, -CASIO_MAX), CASIO_MAX)` —
Python's `max`/`min` return the first maximal/minimal argument, so an
in-range value is returned unchanged (object identity preserved) and an
out-of-range value is replaced by the float bound itself. -/
def clampNum (v : PyConst) : PyConst :=
  let w := if -CASIO_MAX ≤ v.numVal then v else PyConst.cFloat (-CASIO_MAX)
  if w.numVal ≤ CASIO_MAX then w else PyConst.cFloat CASIO_MAX

/-- Python `str(node.value)` for a number-like constant: exact decimal text for
ints, `"True"`/`"False"` for bools, and the parameter `fs` (Python float
`str`) for floats. -/
def pyNumStr (fs : ℚ → String) : PyConst → String
  | .cInt n => toString n
  | .cBool b => if b then "True" else "False"
  | .cFloat q => fs q
  | _ => ""

/-- Python `bytes.replace(b"e", B.EXP)`: the pattern is the single byte `e`, so
the replacement substitutes `B.EXP` for every `e` character.  (A direct
structural implementation of the single-byte-pattern Python semantics.) -/
def replaceExpMark (s : String) : String :=
  String.join (s.data.map (fun c => if c = 'e' then B.EXP else String.mk [c]))

/-- Python `visit_Constant` (compiler.py lines 288-297): strings become quoted
byte literals; number-likes (ints, floats AND bools, by the isinstance
subtyping) are clamped and rendered with `b"e"` replaced by `B.EXP`;
anything else (here only `None`) raises `CasioNotSupportedError`. -/
def visit_Constant (fs : ℚ → String) (c : PyConst) : Except PyErr Code :=
  match c with
  | .cStr s => .ok (Code.make ("\"" ++ s ++ "\"") CasioType.STRING CodeFlags.NONE)
  | .cNone => .error (.casio .notSupported "NoneType type not supported" "")
  | v =>
    let v := clampNum v
    .ok (Code.make (replaceExpMark (pyNumStr fs v)) CasioType.NUMBER CodeFlags.NONE)

/-! ## AST subset and the node visitor (compiler.py)

The embedding covers the node kinds the claims exercise: names,
constants, binary operations, calls (with a static or dynamic callee),
attribute references, expression statements and assignments. -/

inductive BinOp
  | mult | add | sub | div | pow | modOp | floorDiv | bitXor
  | otherBin (name : String)
  deriving DecidableEq, Repr

inductive Expr
  | nameE (id : String)
  | constE (c : PyConst)
  | binOpE (l : Expr) (op : BinOp) (r : Expr)
  | callE (func : String) (args : List Expr)
  | callDynamicE
  | attributeE (dotted : String)
  deriving Repr

/-- Python `isinstance(exp, ast.Call)`. -/
def Expr.isCall : Expr → Bool
  | .callE _ _ => true
  | .callDynamicE => true
  | _ => false

/-- What `self.visit(node)` can hand back: a `Code`, a `ModulePath`, or
Python `None` (a handler path with no `return`, or an unhandled node). -/
inductive VisitRet
  | codeR (c : Code)
  | pathR (p : ModulePath)
  | noneR
  deriving Repr

/-- Python `CodeFlags.debug_msg` (compiler.py lines 46-56). -/
def debug_msg (f : Nat) : String :=
  let canExpr := f &&& CodeFlags.PREVENT_EXPRESSION = 0
  let canAssign := f &&& CodeFlags.PREVENT_ASSIGNMENT = 0
  let canArg := f &&& CodeFlags.PREVENT_ARGUMENT = 0
  if canExpr ∧ ¬canAssign ∧ ¬canArg then "This expression must be used like a statement"
  else if ¬canExpr ∧ canAssign ∧ ¬canArg then "This expression must be used in an assignment"
  else ""

/-- Python `check_eval` applied to a visit result (compiler.py lines 83-91):
anything that is not a `Code` raises `CasioAssignmentError`. -/
def asCode (r : Except PyErr VisitRet) : Except PyErr Code :=
  match r with
  | .error e => .error e
  | .ok (.codeR c) => .ok c
  | .ok (.pathR _) => .error (.casio .assignmentErr "node produced ModulePath which is NOT Code" "")
  | .ok .noneR => .error (.casio .assignmentErr "node produced NoneType which is NOT Code" "")

/-- Python `check_args(count)` inside `visit_Call` (compiler.py lines 202-206). -/
def check_args (funcName : String) (argCount : Nat) (count : Nat) :
    Except PyErr Unit :=
  if argCount > count then
    .error (.casio .operationErr
      ("Too many arguments for " ++ funcName ++ " call, expected " ++
        toString count ++ ", got " ++ toString argCount) "")
  else
    .ok ()

/-- Python `check_type(expected)` inside `visit_Call` (compiler.py lines 211-213). -/
def check_type (funcName : String) (c : Code) (expected : CasioType) :
    Except PyErr Unit :=
  if c.type ≠ expected then
    .error (.casio .typeErr
      (funcName ++ " expects " ++ toString (repr expected) ++ ", not " ++
        toString (repr c.type)) "")
  else
    .ok ()

/-- Python `eval_arg(i)` inside `visit_Call` (compiler.py lines 215-229):
`len(node.args) <= i` is a fatal "not enough arguments" operation error;
otherwise the argument is evaluated with `check_eval`, a NULL-typed
result is a fatal type error and a `PREVENT_ARGUMENT`-flagged result is a
fatal operation error.  `argCount` is `len(node.args)`; `evals` holds the
evaluations of the argument expressions actually consulted — every
`eval_arg` call site in the source uses index 0, so the visitor supplies
the first argument's evaluation (the second match arm is unreachable
whenever `evals` covers index `i < argCount`). -/
def eval_arg (funcName : String) (argCount : Nat) (evals : List (Except PyErr Code))
    (i : Nat) : Except PyErr Code := do
  if argCount ≤ i then
    .error (.casio .operationErr
      ("Not enough arguments for " ++ funcName ++ " call, expected arg " ++ toString i) "")
  else
    match evals[i]? with
    | none =>
      .error (.casio .operationErr
        ("Not enough arguments for " ++ funcName ++ " call, expected arg " ++ toString i) "")
    | some r =>
      let c ← r
      if c.type = CasioType.NULL then
        .error (.casio .typeErr "This expression does not return a value" (debug_msg c.flags))
      else if c.flags &&& CodeFlags.PREVENT_ARGUMENT ≠ 0 then
        .error (.casio .operationErr "This expression cannot be used as an argument" (debug_msg c.flags))
      else
        .ok c

/-- The body of `visit_Call` (compiler.py lines 194-286) after the callee
name is known, given the (lazily consulted) evaluations of the argument
expressions.  Branches in source order.  Two deliberate faithfulness
points: the `int` branch concatenates `B.INT + b"(" + n + b")"` where `n`
is the `Code` object itself (line 253, missing `.bytes`), which in Python
raises `TypeError`; and the `print` branch has no case for two or more
arguments, so the function falls off the end and returns `None`. -/
def visit_Call_named (funcName : String) (argCount : Nat)
    (evals : List (Except PyErr Code)) : Except PyErr VisitRet := do
  if funcName = "abs" then
    check_args funcName argCount 1
    let n ← eval_arg funcName argCount evals 0
    check_type funcName n CasioType.NUMBER
    .ok (.codeR (Code.make (B.ABSOLUTE ++ "(" ++ n.bytes ++ ")") CasioType.NUMBER CodeFlags.NONE))
  else if funcName = "complex" then
    .error (.casio .notImplemented (funcName ++ " not implemented yet") "")
  else if funcName = "input" then
    check_args funcName argCount 1
    if argCount = 0 then
      .ok (.codeR (Code.make "?" CasioType.STRING
        (CodeFlags.PREVENT_ARGUMENT ||| CodeFlags.PREVENT_EXPRESSION ||| CodeFlags.HAS_SIDE_EFFECTS)))
    else do
      let s ← eval_arg funcName argCount evals 0
      check_type funcName s CasioType.STRING
      .ok (.codeR (Code.make (s.bytes ++ "?") CasioType.STRING
        (CodeFlags.PREVENT_ARGUMENT ||| CodeFlags.PREVENT_EXPRESSION ||| CodeFlags.HAS_SIDE_EFFECTS)))
  else if funcName = "int" then
    check_args funcName argCount 1
    let n ← eval_arg funcName argCount evals 0
    check_type funcName n CasioType.NUMBER
    -- source: Code(B.INT + b"(" + n + b")", ...) — `n` is the Code
    -- object, not `n.bytes`; adding a Code to bytes raises TypeError
    .error (.typeError "cannot concat Code to bytes")
  else if funcName = "bool" then
    check_args funcName argCount 1
    let n ← eval_arg funcName argCount evals 0
    check_type funcName n CasioType.NUMBER
    .ok (.codeR (Code.make n.bytes n.type CodeFlags.IS_BOOLEAN))
  else if funcName = "len" ∨ funcName = "list" ∨ funcName = "max" ∨ funcName = "min" then
    .error (.casio .notImplemented (funcName ++ " not implemented yet") "")
  else if funcName = "print" then
    if argCount = 0 then
      .ok (.codeR (Code.make "" CasioType.NULL CodeFlags.HAS_SIDE_EFFECTS))
    else if argCount = 1 then do
      let u ← eval_arg funcName argCount evals 0
      .ok (.codeR (Code.make (u.bytes ++ B.DISP) CasioType.NULL CodeFlags.HAS_SIDE_EFFECTS))
    else
      -- no branch for 2+ arguments: the Python function returns None
      .ok .noneR
  else if funcName = "range" ∨ funcName = "round" ∨ funcName = "sum" then
    .error (.casio .notImplemented (funcName ++ " not implemented yet") "")
  else
    .error (.casio .notSupported (funcName ++ " built-in function is not supported")
      ("The most likely reason is that this function is too complex. " ++
        "Try checking the casio library for similar functions."))

/-- The body of `visit_BinOp` (compiler.py lines 315-353) after both
operands have been evaluated: exact type equality, NUMBER-only, flags are
the bitwise AND of the operand flags, each operator's byte template as in
the source, and bitwise-xor only when the combined flags carry
`IS_BOOLEAN`. -/
def visit_BinOp_core (leftEval rightEval : Code) (op : BinOp) :
    Except PyErr Code :=
  if leftEval.type ≠ rightEval.type then
    .error (.casio .typeErr
      ("Types are not compatible: " ++ toString (repr leftEval.type) ++ " and " ++
        toString (repr rightEval.type)) "")
  else if leftEval.type ≠ CasioType.NUMBER then
    .error (.casio .typeErr "Binary operations only supported with numbers" "")
  else
    let flags := leftEval.flags &&& rightEval.flags
    let simple_bin := fun (operator : String) =>
      Code.make ("(" ++ leftEval.bytes ++ operator ++ rightEval.bytes ++ ")")
        leftEval.type flags
    match op with
    | .mult => .ok (simple_bin B.MULTIPLY)
    | .add => .ok (simple_bin B.ADD)
    | .sub => .ok (simple_bin B.SUBTRACT)
    | .div => .ok (simple_bin B.DIVIDE)
    | .pow => .ok (simple_bin B.POWER)
    | .modOp =>
      .ok (Code.make (B.MOD ++ leftEval.bytes ++ "," ++ rightEval.bytes ++ ")")
        CasioType.NUMBER flags)
    | .floorDiv =>
      .ok (Code.make (B.FLOOR ++ "(" ++ leftEval.bytes ++ B.DIVIDE ++ rightEval.bytes ++ ")")
        CasioType.NUMBER flags)
    | .bitXor =>
      if flags &&& CodeFlags.IS_BOOLEAN ≠ 0 then
        .ok (simple_bin B.XOR)
      else
        .error (.casio .notSupported "Bitwise XOR is not supported by Casio"
          "You can wrap each operand in bool() to use logical XOR instead")
    | .otherBin name =>
      .error (.casio .notSupported (name ++ " binary operation is not supported by Casio") "")

/-- The expression-visitor dispatch (`CasioNodeVisitor.visit` restricted
to expression nodes).  Expressions never mutate the context, so the
visitor takes only the symbol table.  `visit_Name` (lines 153-160) wraps
the symbol's variable bytes and type in a `Code`; a NULL-typed symbol has
`var = None`, and since every consumer of a NULL `Code`'s bytes rejects
the NULL type before touching the bytes, the placeholder `""` is never
observable.  `visit_Attribute` (lines 162-171) resolves via
`lookup_casio_ref` and raises `CasioImportError` when it returns `None`.
A dynamic callee raises `CasioNotImplementedException` (line 200). -/
def visitExpr (fs : ℚ → String) (symbols : SymbolTable) : Expr → Except PyErr VisitRet
  | .nameE id =>
    match symbols.get id with
    | some sym => .ok (.codeR (Code.make (sym.var.getD "") sym.type CodeFlags.NONE))
    | none => .error (.casio .nameErr (id ++ " is not defined") "")
  | .constE c => (visit_Constant fs c).map .codeR
  | .binOpE l op r => do
    let leftEval ← asCode (visitExpr fs symbols l)
    let rightEval ← asCode (visitExpr fs symbols r)
    (visit_BinOp_core leftEval rightEval op).map .codeR
  | .callE funcName [] => visit_Call_named funcName 0 []
  | .callE funcName (a :: rest) =>
    -- only the first argument's evaluation is ever consulted (every
    -- eval_arg call site in visit_Call uses index 0)
    visit_Call_named funcName (a :: rest).length [asCode (visitExpr fs symbols a)]
  | .callDynamicE =>
    .error (.casio .notImplemented "Dynamic function naming is not supported" "")
  | .attributeE dotted => do
    match ← lookup_casio_ref symbols dotted with
    | some fullRef => .ok (.pathR fullRef)
    | none => .error (.casio .importErr (dotted ++ " is not a valid casio reference") "")

/-! ## Statements (compiler.py, visit_Assign and visit_Expr) -/

/-- Modelled from the spec: `CompilerFlags` is referenced by
`compiler.py` (`from .context import ... CompilerFlags`,
`self.ctx.flags & CompilerFlags.IGNORE_WARNINGS`) but its definition is
missing from the `context.py` in this tree; per the spec the core
recognizes "a single flag to suppress "no effect" warnings during
translation". -/
def IGNORE_WARNINGS : Nat := 1

/-- The mutable part of `CasioContext` the translator touches: the symbol
table, the emitted statement lines, the configuration flags, and the
warnings surfaced so far. -/
structure Ctx where
  symbols : SymbolTable
  code : List String
  flags : Nat
  warnings : List String

/-- A fresh `CasioContext` (context.py lines 92-98), with no flags set. -/
def Ctx.init : Ctx := ⟨SymbolTable.init, [], 0, []⟩

/-- Python `CasioNodeVisitor.warning` (compiler.py lines 78-81). -/
def Ctx.warn (ctx : Ctx) (w : String) : Ctx :=
  if ctx.flags &&& IGNORE_WARNINGS ≠ 0 then ctx
  else { ctx with warnings := ctx.warnings ++ [w] }

/-- An assignment target: `ast.Name` or any other (unsupported) form. -/
inductive Target
  | nameT (id : String)
  | otherT
  deriving Repr

inductive Stmt
  | assign (targets : List Target) (value : Expr)
  | exprStmt (value : Expr)
  deriving Repr

/-- The per-target loop of `visit_Assign` (compiler.py lines 417-438):
each target is processed against the same evaluated right-hand result.
A `Code` right side: NULL type is a fatal type error, a
`PREVENT_ASSIGNMENT` flag is a fatal operation error, otherwise the
symbol table allocates a symbol of the right side's type and the line
`right_bytes ++ B.ASSIGN ++ sym.var` is appended.  A `ModulePath` right
side becomes a NULL alias symbol with no emitted line.  A `None` right
side (unparsed node kind) is a fatal assignment error.  A non-Name
target is a fatal assignment error. -/
def visit_Assign_targets (rightEval : VisitRet) (ctx : Ctx) :
    List Target → Except PyErr Ctx
  | [] => .ok ctx
  | t :: rest => do
    let ctx ←
      match t with
      | .otherT => .error (.casio .assignmentErr "Cannot assign to this symbol" "")
      | .nameT id =>
        match rightEval with
        | .codeR c =>
          if c.type = CasioType.NULL then
            .error (.casio .typeErr "This expression does not return a value" (debug_msg c.flags))
          else if c.flags &&& CodeFlags.PREVENT_ASSIGNMENT ≠ 0 then
            .error (.casio .operationErr "This expression cannot be used in an assignment"
              (debug_msg c.flags))
          else do
            let (st, sym) ← ctx.symbols.new c.type id (SymValue.bytesV c.bytes)
            match sym.var with
            | some v => .ok { ctx with symbols := st, code := ctx.code ++ [c.bytes ++ B.ASSIGN ++ v] }
            | none => .error (.typeError "cannot concat NoneType to bytes")
        | .pathR p => do
          let (st, _) ← ctx.symbols.new CasioType.NULL id (SymValue.pathV p)
          .ok { ctx with symbols := st }
        | .noneR =>
          .error (.casio .assignmentErr "Cannot assign to this expression (unparsed node kind)" "")
    visit_Assign_targets rightEval ctx rest

/-- The statement dispatch: `visit_Assign` (compiler.py lines 413-438)
evaluates the right side once with a raw `self.visit`, then loops over
the targets; `visit_Expr` (lines 173-192) requires the expression to be a
`Code`, then a call with `PREVENT_EXPRESSION` is a fatal operation error,
a call with `HAS_SIDE_EFFECTS` is kept as an emitted line, any other
call — and every non-call bare expression — is dropped with a warning. -/
def visitStmt (fs : ℚ → String) (ctx : Ctx) : Stmt → Except PyErr Ctx
  | .assign targets value => do
    let rightEval ← visitExpr fs ctx.symbols value
    visit_Assign_targets rightEval ctx targets
  | .exprStmt value => do
    let expEval ← asCode (visitExpr fs ctx.symbols value)
    if value.isCall then
      if expEval.flags &&& CodeFlags.PREVENT_EXPRESSION ≠ 0 then
        .error (.casio .operationErr "This call cannot be used as a statement"
          (debug_msg expEval.flags))
      else if expEval.flags &&& CodeFlags.HAS_SIDE_EFFECTS ≠ 0 then
        .ok { ctx with code := ctx.code ++ [expEval.bytes] }
      else
        .ok (ctx.warn "Call has no side effects and will not be included")
    else
      .ok (ctx.warn "Statement has no effect and will not be included")

/-- Walk a whole program (the `compile_source` loop over top-level
statements): any failure aborts the compilation. -/
def runProgram (fs : ℚ → String) (ctx : Ctx) : List Stmt → Except PyErr Ctx
  | [] => .ok ctx
  | s :: rest => do
    let ctx ← visitStmt fs ctx s
    runProgram fs ctx rest

/-- A float renderer for concrete test programs that only contain integer
literals (the renderer is never consulted there). -/
def fsUnused : ℚ → String := fun _ => ""

/-! ## Concrete programs and contexts used by the claims -/

/-- End-to-end scenario A: `x = 3`, `y = 4`, `print(x + y)`. -/
def progScenarioA : List Stmt :=
  [ .assign [.nameT "x"] (.constE (.cInt 3)),
    .assign [.nameT "y"] (.constE (.cInt 4)),
    .exprStmt (.callE "print" [.binOpE (.nameE "x") .add (.nameE "y")]) ]

/-- The context after compiling the single statement `x = 3`. -/
def ctxAfterX3 : Ctx :=
  (runProgram fsUnused Ctx.init [.assign [.nameT "x"] (.constE (.cInt 3))]).toOption.getD Ctx.init

/-- Program of 27 assignments of distinct names to NUMBER literals — one more than
the NUMBER pool holds. -/
def progExhaust : List Stmt :=
  (List.range 27).map (fun i => .assign [.nameT ("x" ++ toString i)] (.constE (.cInt 0)))

/-- A symbol table binding `m` as an alias for the known function module
`pycasio.casio.input` (as `import pycasio.casio.input as m` would). -/
def stWithM : SymbolTable :=
  { SymbolTable.init with
    entries := [("m", Symbol.mk "m" (SymValue.pathV (mkPath "pycasio.casio.input"))
      CasioType.NULL none)] }

/-! ## Helper lemmas -/

lemma and16_and (a b : Nat) : (a &&& b) &&& 16 ≠ 0 ↔ (a &&& 16 ≠ 0 ∧ b &&& 16 ≠ 0) := by
  have h : (16 : Nat) = 2 ^ 4 := by norm_num
  rw [h, Nat.and_two_pow, Nat.and_two_pow, Nat.and_two_pow, Nat.testBit_and]
  cases ha : a.testBit 4 <;> cases hb : b.testBit 4 <;> simp

lemma visitExpr_binOpE (fs : ℚ → String) (st : SymbolTable) (l : Expr) (op : BinOp) (r : Expr) :
    visitExpr fs st (.binOpE l op r) =
      (asCode (visitExpr fs st l)).bind (fun leftEval =>
        (asCode (visitExpr fs st r)).bind (fun rightEval =>
          (visit_BinOp_core leftEval rightEval op).map VisitRet.codeR)) := by
  rw [visitExpr]
  rfl

lemma hM_pos : (0 : ℚ) < CASIO_MAX := by norm_num [CASIO_MAX]

/-- Behaviour of `min(max(v, -CASIO_MAX), CASIO_MAX)`: above-bound values
become the positive edge, below-bound values the negative edge, in-range
values pass through unchanged. -/
lemma clamp_spec (v : PyConst) :
    (CASIO_MAX < v.numVal → clampNum v = .cFloat CASIO_MAX) ∧
    (v.numVal < -CASIO_MAX → clampNum v = .cFloat (-CASIO_MAX)) ∧
    (-CASIO_MAX ≤ v.numVal → v.numVal ≤ CASIO_MAX → clampNum v = v) := by
  have hM := hM_pos
  refine ⟨?_, ?_, ?_⟩
  · intro h
    simp only [clampNum]
    rw [if_pos (show -CASIO_MAX ≤ v.numVal by linarith),
      if_neg (show ¬ v.numVal ≤ CASIO_MAX by linarith)]
  · intro h
    simp only [clampNum]
    rw [if_neg (show ¬ -CASIO_MAX ≤ v.numVal by linarith)]
    simp only [PyConst.numVal]
    rw [if_pos (show -CASIO_MAX ≤ CASIO_MAX by linarith)]
  · intro h1 h2
    simp only [clampNum]
    rw [if_pos h1, if_pos h2]

/-- Python `SymbolTable.alloc` on a fresh non-NULL symbol with a nonempty pool
pops the pool's last token into the symbol. -/
lemma alloc_spec (st : SymbolTable) (sym : Symbol) (hv : sym.var = none)
    (ht : sym.type ≠ CasioType.NULL) (tok : String)
    (htok : (st.freePool sym.type).getLast? = some tok) :
    st.alloc sym = .ok (st.setPool sym.type (st.freePool sym.type).dropLast,
      { sym with var := some tok }) := by
  simp only [SymbolTable.alloc]
  rw [hv, htok]
  simp [ht]

/-- Python `SymbolTable.new` with a non-NULL type and a nonempty pool pops the
pool's last token and (over)writes the binding. -/
lemma new_spec (st : SymbolTable) (t : CasioType) (nm : String) (v : SymValue)
    (ht : t ≠ CasioType.NULL) (tok : String)
    (htok : (st.freePool t).getLast? = some tok) :
    st.new t nm v = .ok
      ((st.setPool t (st.freePool t).dropLast).add ⟨nm, v, t, some tok⟩,
       ⟨nm, v, t, some tok⟩) := by
  simp only [SymbolTable.new, Symbol.make]
  rw [if_pos ht, alloc_spec st ⟨nm, v, t, none⟩ rfl ht tok htok]
  rfl

lemma find?_map_update (l : List (String × Symbol)) (nm : String) (sym : Symbol)
    (h : l.any (fun e => e.1 == nm) = true) :
    ((l.map (fun e => if e.1 == nm then (nm, sym) else e)).find? (fun e => e.1 == nm)) =
      some (nm, sym) := by
  induction l with
  | nil => simp at h
  | cons hd tl ih =>
    cases hb : (hd.1 == nm) with
    | true => simp [List.find?, hb]
    | false =>
      simp only [List.any_cons, hb, Bool.false_or] at h
      simpa [List.find?, hb] using ih h

lemma find?_append_new (l : List (String × Symbol)) (nm : String) (sym : Symbol)
    (h : l.any (fun e => e.1 == nm) = false) :
    ((l ++ [(nm, sym)]).find? (fun e => e.1 == nm)) = some (nm, sym) := by
  induction l with
  | nil => simp [List.find?]
  | cons hd tl ih =>
    simp only [List.any_cons, Bool.or_eq_false_iff] at h
    simpa [List.find?, h.1] using ih h.2

/-- Looking a name up right after `add` yields the added symbol
(`self[sym.name] = sym` overwrites or appends). -/
lemma get_add_self (st : SymbolTable) (sym : Symbol) :
    (st.add sym).get sym.name = some sym := by
  unfold SymbolTable.add SymbolTable.get
  cases hb : st.entries.any (fun e => e.1 == sym.name) with
  | true =>
    simp only [hb, if_true]
    rw [find?_map_update _ _ _ hb]
    rfl
  | false =>
    simp only [hb, Bool.false_eq_true, if_false]
    rw [find?_append_new _ _ _ hb]
    rfl

/-- Python `add` only touches the dict, never the free pools. -/
lemma freePool_add (st : SymbolTable) (sym : Symbol) (t : CasioType) :
    (st.add sym).freePool t = st.freePool t := by
  cases hb : st.entries.any (fun e => e.1 == sym.name) <;> cases t <;>
    simp [SymbolTable.add, SymbolTable.freePool, hb]

lemma freePool_setPool (st : SymbolTable) (t : CasioType) (l : List String)
    (ht : t ≠ CasioType.NULL) :
    (st.setPool t l).freePool t = l := by
  cases t
  · exact absurd rfl ht
  · rfl
  · rfl

/-! ## Claims -/

/-- C1 (amended): a later assignment to a name already bound to a NUMBER-
or STRING-typed Symbol does NOT reuse the existing slot: `visit_Assign`
unconditionally calls `SymbolTable.new`, which creates a fresh Symbol and
pops a fresh token from the matching pool, so the pool's available count
decreases by one on every (re-)assignment and the previously held token
is never returned to the pool. -/
theorem claim_C1 (ctx : Ctx) (nm : String) (c : Code)
    (_hbound : (ctx.symbols.get nm).isSome)
    (hty : c.type ≠ CasioType.NULL)
    (hflag : c.flags &&& CodeFlags.PREVENT_ASSIGNMENT = 0)
    (hpool : ctx.symbols.freePool c.type ≠ []) :
    ∃ ctx2 tok,
      visit_Assign_targets (.codeR c) ctx [.nameT nm] = .ok ctx2 ∧
      (ctx.symbols.freePool c.type).getLast? = some tok ∧
      ctx2.symbols.freePool c.type = (ctx.symbols.freePool c.type).dropLast ∧
      (ctx2.symbols.freePool c.type).length + 1 = (ctx.symbols.freePool c.type).length ∧
      ctx2.symbols.get nm = some ⟨nm, SymValue.bytesV c.bytes, c.type, some tok⟩ ∧
      ctx2.code = ctx.code ++ [c.bytes ++ B.ASSIGN ++ tok] := by
  obtain ⟨tok, htok⟩ : ∃ tok, (ctx.symbols.freePool c.type).getLast? = some tok :=
    ⟨_, List.getLast?_eq_getLast _ hpool⟩
  have hstep : visit_Assign_targets (.codeR c) ctx [.nameT nm] =
      .ok { ctx with
        symbols := (ctx.symbols.setPool c.type (ctx.symbols.freePool c.type).dropLast).add
          ⟨nm, SymValue.bytesV c.bytes, c.type, some tok⟩,
        code := ctx.code ++ [c.bytes ++ B.ASSIGN ++ tok] } := by
    unfold visit_Assign_targets
    dsimp only
    rw [if_neg hty, if_neg (by simp [hflag]), new_spec _ _ _ _ hty tok htok]
    rfl
  refine ⟨_, tok, hstep, htok, ?_, ?_, ?_, ?_⟩
  · rw [freePool_add, freePool_setPool _ _ _ hty]
  · rw [freePool_add, freePool_setPool _ _ _ hty]
    have := List.length_pos.mpr hpool
    rw [List.length_dropLast]
    omega
  · exact get_add_self _ _
  · rfl

/-- C1 witness: re-assigning `x` (bound by `x = 3`, which received slot
`A`) with the NUMBER code `4` pops a fresh slot. -/
theorem claim_C1_witness :
    ∃ ctx2 tok,
      visit_Assign_targets (.codeR ⟨"4", CasioType.NUMBER, 0⟩) ctxAfterX3 [.nameT "x"] =
        .ok ctx2 ∧
      (ctxAfterX3.symbols.freePool CasioType.NUMBER).getLast? = some tok ∧
      ctx2.symbols.freePool CasioType.NUMBER =
        (ctxAfterX3.symbols.freePool CasioType.NUMBER).dropLast ∧
      (ctx2.symbols.freePool CasioType.NUMBER).length + 1 =
        (ctxAfterX3.symbols.freePool CasioType.NUMBER).length ∧
      ctx2.symbols.get "x" = some ⟨"x", SymValue.bytesV "4", CasioType.NUMBER, some tok⟩ ∧
      ctx2.code = ctxAfterX3.code ++ ["4" ++ B.ASSIGN ++ tok] :=
  claim_C1 ctxAfterX3 "x" ⟨"4", CasioType.NUMBER, 0⟩ (by rfl) (by decide) (by rfl) (by decide)

/-- C1 counterexample: the claim as stated says the pool's available
count is unchanged across a re-assignment.  Compiling `x = 3` leaves 25
free NUMBER tokens; compiling `x = 3` then `x = 4` leaves 24 — the
re-assignment popped a second token (and `x` now holds slot `B`, the
first-popped slot `A` having leaked). -/
theorem claim_C1_counterexample :
    (runProgram fsUnused Ctx.init [.assign [.nameT "x"] (.constE (.cInt 3))]).map
        (fun ctx => ctx.symbols.freeNum.length) = .ok 25 ∧
    (runProgram fsUnused Ctx.init [.assign [.nameT "x"] (.constE (.cInt 3)),
        .assign [.nameT "x"] (.constE (.cInt 4))]).map
        (fun ctx => ctx.symbols.freeNum.length) = .ok 24 ∧
    (runProgram fsUnused Ctx.init [.assign [.nameT "x"] (.constE (.cInt 3)),
        .assign [.nameT "x"] (.constE (.cInt 4))]).map
        (fun ctx => (ctx.symbols.get "x").map Symbol.var) = .ok (some (some "B")) ∧
    (25 : Nat) ≠ 24 :=
  ⟨rfl, rfl, rfl, by decide⟩

/-- C2 (code bug): exhausting the NUMBER pool does not raise the
allocation diagnostic.  `SymbolTable.alloc` does
`self.free_vars[sym.type].pop()`, and Python's `list.pop()` on an empty
list raises a plain `IndexError`; `CasioAllocationException` is defined
in exceptions.py but never raised anywhere in the code.  27 assignments
to distinct names (the pool holds 26 tokens) abort with the `IndexError`,
after the 26th assignment has emptied the pool. -/
theorem claim_C2_bug :
    runProgram fsUnused Ctx.init progExhaust = .error (.indexError "pop from empty list") ∧
    (runProgram fsUnused Ctx.init (progExhaust.take 26)).map
        (fun ctx => (ctx.symbols.freeNum.length, ctx.code.length)) = .ok (0, 26) :=
  ⟨rfl, rfl⟩

/-- C3 (confirmed): compiling `x = 3; y = 4; print(x + y)` emits exactly
three lines — `3➔A`, `4➔B` (two distinct freshly popped NUMBER slots, 24
tokens left of 26) and `(A+B)◢` (parenthesized sum of the two slot bytes
followed by the display instruction). -/
theorem claim_C3 :
    (runProgram fsUnused Ctx.init progScenarioA).map
        (fun ctx => (ctx.code, (ctx.symbols.get "x").map Symbol.var,
          (ctx.symbols.get "y").map Symbol.var, ctx.symbols.freeNum.length)) =
      .ok (["3" ++ B.ASSIGN ++ "A", "4" ++ B.ASSIGN ++ "B",
            "(" ++ "A" ++ B.ADD ++ "B" ++ ")" ++ B.DISP],
           some (some "A"), some (some "B"), 24) ∧
    ("A" : String) ≠ "B" :=
  ⟨rfl, by decide⟩

/-- C4 (code bug): `int` applied to one NUMBER argument does NOT return a
Code Value — compiler.py line 253 computes `B.INT + b"(" + n + b")"`
where `n` is the `Code` object itself (missing `.bytes`), so Python
raises `TypeError`; and `print` with two or more arguments has no branch
in `visit_Call`, so the handler returns `None` instead of raising the
wrong-arity operation error.  For contrast, the `bool` builtin behaves as
the claim describes. -/
theorem claim_C4_bug :
    visitExpr fsUnused SymbolTable.init (.callE "int" [.constE (.cInt 1)]) =
      .error (.typeError "cannot concat Code to bytes") ∧
    visitExpr fsUnused SymbolTable.init
        (.callE "print" [.constE (.cInt 1), .constE (.cInt 2)]) = .ok .noneR ∧
    visitExpr fsUnused SymbolTable.init (.callE "bool" [.constE (.cInt 1)]) =
      .ok (.codeR ⟨"1", CasioType.NUMBER, CodeFlags.IS_BOOLEAN⟩) :=
  ⟨rfl, rfl, rfl⟩

/-- C5 (confirmed): every numeric (integer or floating) literal
translates to a NUMBER-typed Code whose bytes are the decimal text of the
clamped value with the `e` marker replaced by the calculator's exponent
byte; the clamp sends values above `9.999999999e99` to the positive edge,
values below `-9.999999999e99` to the negative edge, and leaves in-range
values unchanged.  (Python's float-to-decimal-text conversion is the
parameter `fs`; integer rendering is exact.) -/
theorem claim_C5 (fs : ℚ → String) (v : PyConst)
    (hnum : (∃ n, v = PyConst.cInt n) ∨ (∃ q, v = PyConst.cFloat q)) :
    visit_Constant fs v =
      .ok ⟨replaceExpMark (pyNumStr fs (clampNum v)), CasioType.NUMBER, CodeFlags.NONE⟩ ∧
    (CASIO_MAX < v.numVal → clampNum v = .cFloat CASIO_MAX) ∧
    (v.numVal < -CASIO_MAX → clampNum v = .cFloat (-CASIO_MAX)) ∧
    (-CASIO_MAX ≤ v.numVal → v.numVal ≤ CASIO_MAX → clampNum v = v) := by
  rcases hnum with ⟨n, rfl⟩ | ⟨q, rfl⟩ <;> exact ⟨rfl, clamp_spec _⟩

/-- C5 witness: the literal `3` — in range, rendered as `"3"`. -/
theorem claim_C5_witness :
    (visit_Constant (fun _ => "") (PyConst.cInt 3) =
      .ok ⟨replaceExpMark (pyNumStr (fun _ => "") (clampNum (PyConst.cInt 3))),
        CasioType.NUMBER, CodeFlags.NONE⟩ ∧
    (CASIO_MAX < (PyConst.cInt 3).numVal → clampNum (PyConst.cInt 3) = .cFloat CASIO_MAX) ∧
    ((PyConst.cInt 3).numVal < -CASIO_MAX → clampNum (PyConst.cInt 3) = .cFloat (-CASIO_MAX)) ∧
    (-CASIO_MAX ≤ (PyConst.cInt 3).numVal → (PyConst.cInt 3).numVal ≤ CASIO_MAX →
      clampNum (PyConst.cInt 3) = PyConst.cInt 3)) ∧
    visit_Constant (fun _ => "") (PyConst.cInt 3) = .ok ⟨"3", CasioType.NUMBER, 0⟩ :=
  ⟨claim_C5 (fun _ => "") (PyConst.cInt 3) (Or.inl ⟨3, rfl⟩), rfl⟩

/-- C6 (code bug): the boolean literals do NOT fail with a not-supported
error.  In Python `bool` is a subclass of `int`, so `True`/`False` pass
the `isinstance(node.value, int)` test in `visit_Constant` and are
translated as NUMBER-typed Code whose bytes are `str(True)`/`str(False)`
with the `e` of `True`/`False` replaced by the exponent byte — the
nonsensical byte strings `Tru␏`/`Fals␏`.  Only `None` raises the
not-supported error as the claim describes. -/
theorem claim_C6_bug :
    visit_Constant fsUnused (.cBool true) =
      .ok ⟨"Tru" ++ B.EXP, CasioType.NUMBER, CodeFlags.NONE⟩ ∧
    visit_Constant fsUnused (.cBool false) =
      .ok ⟨"Fals" ++ B.EXP, CasioType.NUMBER, CodeFlags.NONE⟩ ∧
    visit_Constant fsUnused .cNone =
      .error (.casio .notSupported "NoneType type not supported" "") :=
  ⟨rfl, rfl, rfl⟩

/-- C7 (confirmed): for a bitwise-xor node over two expressions that
evaluate to NUMBER Codes, if both carry `IS_BOOLEAN` the result is the
parenthesized concatenation joined by the logical-XOR byte (flags are the
AND of the operand flags); if either operand lacks the flag, translation
fails with the not-supported error whose help text mentions wrapping
operands in `bool()`. -/
theorem claim_C7 (fs : ℚ → String) (st : SymbolTable) (e1 e2 : Expr) (c1 c2 : Code)
    (h1 : visitExpr fs st e1 = .ok (.codeR c1))
    (h2 : visitExpr fs st e2 = .ok (.codeR c2))
    (ht1 : c1.type = CasioType.NUMBER) (ht2 : c2.type = CasioType.NUMBER) :
    (c1.flags &&& CodeFlags.IS_BOOLEAN ≠ 0 → c2.flags &&& CodeFlags.IS_BOOLEAN ≠ 0 →
      visitExpr fs st (.binOpE e1 .bitXor e2) =
        .ok (.codeR ⟨"(" ++ c1.bytes ++ B.XOR ++ c2.bytes ++ ")", CasioType.NUMBER,
          c1.flags &&& c2.flags⟩)) ∧
    ((c1.flags &&& CodeFlags.IS_BOOLEAN = 0 ∨ c2.flags &&& CodeFlags.IS_BOOLEAN = 0) →
      visitExpr fs st (.binOpE e1 .bitXor e2) =
        .error (.casio .notSupported "Bitwise XOR is not supported by Casio"
          "You can wrap each operand in bool() to use logical XOR instead")) := by
  have hrw := visitExpr_binOpE fs st e1 .bitXor e2
  rw [h1, h2] at hrw
  simp only [asCode, Except.bind] at hrw
  rw [hrw]
  unfold visit_BinOp_core
  rw [ht1, ht2]
  simp only [CodeFlags.IS_BOOLEAN]
  constructor
  · intro hb1 hb2
    have hb : (c1.flags &&& c2.flags) &&& 16 ≠ 0 := (and16_and _ _).mpr ⟨hb1, hb2⟩
    simp [hb, Code.make, Except.map, ht1]
  · intro hor
    have hb : ¬ ((c1.flags &&& c2.flags) &&& 16 ≠ 0) := by
      rw [and16_and]
      tauto
    simp [hb, Except.map]

/-- C7 witness: `bool(1) ^ bool(0)` translates as logical xor; `1 ^ 0`
(without the bool wrapping) fails with the not-supported error that
mentions `bool()`. -/
theorem claim_C7_witness :
    visitExpr fsUnused SymbolTable.init
        (.binOpE (.callE "bool" [.constE (.cInt 1)]) .bitXor
          (.callE "bool" [.constE (.cInt 0)])) =
      .ok (.codeR ⟨"(" ++ "1" ++ B.XOR ++ "0" ++ ")", CasioType.NUMBER, 16⟩) ∧
    visitExpr fsUnused SymbolTable.init
        (.binOpE (.constE (.cInt 1)) .bitXor (.constE (.cInt 0))) =
      .error (.casio .notSupported "Bitwise XOR is not supported by Casio"
        "You can wrap each operand in bool() to use logical XOR instead") := by
  constructor
  · exact (claim_C7 fsUnused SymbolTable.init
      (.callE "bool" [.constE (.cInt 1)]) (.callE "bool" [.constE (.cInt 0)])
      ⟨"1", CasioType.NUMBER, CodeFlags.IS_BOOLEAN⟩
      ⟨"0", CasioType.NUMBER, CodeFlags.IS_BOOLEAN⟩ rfl rfl rfl rfl).1
      (by decide) (by decide)
  · exact (claim_C7 fsUnused SymbolTable.init
      (.constE (.cInt 1)) (.constE (.cInt 0))
      ⟨"1", CasioType.NUMBER, 0⟩ ⟨"0", CasioType.NUMBER, 0⟩ rfl rfl rfl rfl).2
      (Or.inl (by decide))

/-- C8 (code bug): `lookup_casio_ref` does not return `None` when the
substituted path names a known function-module but an unknown function —
it crashes.  On that path `get_casio_ref_type` returns a bare `None`
(context.py line 33, unlike the tuple `(None, '')` of line 27), and the
caller's unpacking `ref_type, ref = get_casio_ref_type(mod)` raises
`TypeError: cannot unpack non-iterable NoneType object`.  Because the
registry's function set for `pycasio.casio.input` is empty (the module
body is never executed — see `POSSIBLE_FUNCTIONS`), even the genuinely
defined `number_input` takes the same crashing path; only a plain module
reference resolves. -/
theorem claim_C8_bug :
    lookup_casio_ref stWithM "m.bogus" =
      .error (.typeError "cannot unpack non-iterable NoneType object") ∧
    lookup_casio_ref stWithM "m.number_input" =
      .error (.typeError "cannot unpack non-iterable NoneType object") ∧
    lookup_casio_ref stWithM "m" = .ok (some (mkPath "pycasio.casio.input")) :=
  ⟨rfl, rfl, rfl⟩

/-- C9 (code bug): `is_direct_child` compares `self[:-1] == child`
(module_helper.py line 53) instead of `self == child[:-1]`, so the
genuine direct child `pycasio.casio` of `pycasio` — which satisfies the
claim's condition (one segment longer, first segments equal) — is
rejected, and `get_direct_children` returns no candidates at all. -/
theorem claim_C9_bug :
    (mkPath "pycasio").is_direct_child (mkPath "pycasio.casio") = false ∧
    (mkPath "pycasio").get_direct_children [mkPath "pycasio.casio", mkPath "pycasio"] = [] ∧
    (mkPath "pycasio").path.length + 1 = (mkPath "pycasio.casio").path.length ∧
    (mkPath "pycasio.casio").path.take (mkPath "pycasio").path.length =
      (mkPath "pycasio").path :=
  ⟨rfl, rfl, rfl, rfl⟩

/-- C10 (confirmed): a fresh Symbol Table's NUMBER pool holds exactly the
26 tokens theta, radius and the letters A-Z minus X and Y; the STRING
pool holds the 20 tokens `Str 1` … `Str 20`; allocation pops from the
back, so NUMBER allocations receive A, B, C, … and the first STRING
allocation receives `Str 20`. -/
theorem claim_C10 :
    SymbolTable.init.freeNum =
      [B.THETA, B.RADIUS, "Z", "W", "V", "U", "T", "S", "R", "Q", "P", "O", "N", "M",
       "L", "K", "J", "I", "H", "G", "F", "E", "D", "C", "B", "A"] ∧
    SymbolTable.init.freeNum.length = 26 ∧
    SymbolTable.init.freeStr =
      [B.STRING ++ "1", B.STRING ++ "2", B.STRING ++ "3", B.STRING ++ "4",
       B.STRING ++ "5", B.STRING ++ "6", B.STRING ++ "7", B.STRING ++ "8",
       B.STRING ++ "9", B.STRING ++ "10", B.STRING ++ "11", B.STRING ++ "12",
       B.STRING ++ "13", B.STRING ++ "14", B.STRING ++ "15", B.STRING ++ "16",
       B.STRING ++ "17", B.STRING ++ "18", B.STRING ++ "19", B.STRING ++ "20"] ∧
    SymbolTable.init.freeStr.length = 20 ∧
    ((do
        let (st, s1) ← SymbolTable.init.new CasioType.NUMBER "a" (SymValue.bytesV "1")
        let (st, s2) ← st.new CasioType.NUMBER "b" (SymValue.bytesV "2")
        let (st, s3) ← st.new CasioType.NUMBER "c" (SymValue.bytesV "3")
        let (_, s4) ← st.new CasioType.STRING "s" (SymValue.bytesV "t")
        pure (s1.var, s2.var, s3.var, s4.var) : Except PyErr _) =
      .ok (some "A", some "B", some "C", some (B.STRING ++ "20"))) :=
  ⟨rfl, rfl, rfl, rfl, rfl⟩

end Pycasio
